import Mathlib

/-!
Verification of the conversation session / state layer of the
agentrylab-telegram-bot repository, shallowly embedded in Lean.

The embedding mirrors:
  * `bot/states/conversation.py` — the `ConversationState` enum, the
    `UserConversationState` dataclass and its methods;
  * `bot/constants.py` — the parallel string constants in
    `ConversationStates` (note: these are plain strings, distinct Python
    values from the enum members of the same name);
  * `bot/services/conversation_service.py` — the lifecycle operations
    `start_conversation`, `pause_conversation`, `resume_conversation`,
    `stop_conversation`, `handle_user_input`, `_handle_conversation_event`
    and the drain loop `_stream_conversation_events`;
  * `bot/adapters/agentrylab.py` — the thread-to-async stream bridge
    `_iterate_lab_stream`, the drain task `_run_conversation` and
    `stop_conversation` cancellation.

Python-value subtlety carried through faithfully: the service module sets
user states using the string constants from `bot/constants.py`
(`ConversationStates.IN_CONVERSATION = "in_conversation" : str`), while the
predicates `is_active`, `is_in_conversation` and
`can_start_new_conversation` in `bot/states/conversation.py` test membership
of `self.state` in sets of `ConversationState` *enum members*.  In Python an
enum member is never equal to (nor hashes like) its string value, so the two
families of values never compare equal.  `StateVal` below keeps the two
apart, with `PyEq`-style equality given by structural equality on the
constructors (same kind and same tag), exactly matching Python `==`.
-/

namespace AgentryBot

/-- The ten members of the `ConversationState` enum in
`bot/states/conversation.py` (their `.value` strings are the lowercase
names). -/
inductive ConvState where
  | IDLE
  | SELECTING_PRESET
  | ENTERING_TOPIC
  | CONFIRMING_TOPIC
  | STARTING_CONVERSATION
  | IN_CONVERSATION
  | WAITING_FOR_USER_INPUT
  | CONVERSATION_PAUSED
  | CONVERSATION_ENDED
  | ERROR
deriving DecidableEq, Repr

/-- A Python value stored in the `state` field of `UserConversationState`.
Two distinct families occur in the program: `ConversationState` enum members
(written to by `bot/handlers/*.py` and used in the predicate sets of
`bot/states/conversation.py`) and the plain string constants of
`constants.ConversationStates` (written to by
`bot/services/conversation_service.py`).  A member and the string of the
same name are different Python values that compare unequal; structural
(decidable) equality of `StateVal` coincides with Python `==` on these
values. -/
inductive StateVal where
  | en (s : ConvState)
  | st (s : ConvState)
deriving DecidableEq, Repr

/-- Membership test of a `state` field value in a set of
`ConversationState` enum members, as executed by Python: only an enum
member can be found in such a set, and then exactly by being the same
member. -/
def enumMem (v : StateVal) (l : List ConvState) : Bool :=
  match v with
  | .en s => l.contains s
  | .st _ => false

/-- The `UserConversationState` dataclass (`bot/states/conversation.py`).
`last_activity` carries no claim-relevant information and is omitted;
`metadata` keeps the keys/values written by the service (`max_rounds`,
`started_at`), with timestamps abstracted to naturals. -/
structure UserConversationState where
  user_id : String
  state : StateVal := .en .IDLE
  selected_preset : Option String := none
  selected_topic : Option String := none
  conversation_id : Option String := none
  metadata : List (String × Nat) := []
deriving DecidableEq, Repr

namespace UserConversationState

/-- `set_state`: assign the new state value (activity timestamp omitted). -/
def set_state (u : UserConversationState) (s : StateVal) : UserConversationState :=
  { u with state := s }

/-- `set_preset`. -/
def set_preset (u : UserConversationState) (p : String) : UserConversationState :=
  { u with selected_preset := some p }

/-- `set_topic`. -/
def set_topic (u : UserConversationState) (t : String) : UserConversationState :=
  { u with selected_topic := some t }

/-- `set_conversation_id`. -/
def set_conversation_id (u : UserConversationState) (c : String) : UserConversationState :=
  { u with conversation_id := some c }

/-- `add_metadata`. -/
def add_metadata (u : UserConversationState) (k : String) (v : Nat) : UserConversationState :=
  { u with metadata := u.metadata ++ [(k, v)] }

/-- `reset`: back to the enum member `IDLE`, clearing preset, topic,
conversation id and metadata. -/
def reset (u : UserConversationState) : UserConversationState :=
  { u with state := .en .IDLE, selected_preset := none, selected_topic := none,
           conversation_id := none, metadata := [] }

/-- `is_active`: membership of `self.state` in a set of seven
`ConversationState` enum members. -/
def is_active (u : UserConversationState) : Bool :=
  enumMem u.state
    [.SELECTING_PRESET, .ENTERING_TOPIC, .CONFIRMING_TOPIC,
     .STARTING_CONVERSATION, .IN_CONVERSATION, .WAITING_FOR_USER_INPUT,
     .CONVERSATION_PAUSED]

/-- `is_in_conversation`: membership of `self.state` in the set of the
three enum members `IN_CONVERSATION`, `WAITING_FOR_USER_INPUT`,
`CONVERSATION_PAUSED`. -/
def is_in_conversation (u : UserConversationState) : Bool :=
  enumMem u.state [.IN_CONVERSATION, .WAITING_FOR_USER_INPUT, .CONVERSATION_PAUSED]

/-- `can_start_new_conversation`: membership of `self.state` in the set of
the four enum members `IDLE`, `ENTERING_TOPIC`, `CONVERSATION_ENDED`,
`ERROR`. -/
def can_start_new_conversation (u : UserConversationState) : Bool :=
  enumMem u.state [.IDLE, .ENTERING_TOPIC, .CONVERSATION_ENDED, .ERROR]

end UserConversationState

/-- A fresh `UserConversationState`, as created lazily by
`ConversationStateManager.get_user_state` for an unknown user: default
state is the enum member `IDLE`, every optional field `None`. -/
def freshUser (uid : String) : UserConversationState := { user_id := uid }

/-- The spec-level notion "the flow state is in conversation", i.e. the
state value denotes one of `IN_CONVERSATION`, `WAITING_FOR_USER_INPUT`,
`CONVERSATION_PAUSED`, independently of whether the program stored the enum
member or the string constant.  Used to phrase the claims, which speak of
abstract states. -/
def specInConversation (v : StateVal) : Bool :=
  match v with
  | .en s => [ConvState.IN_CONVERSATION, .WAITING_FOR_USER_INPUT, .CONVERSATION_PAUSED].contains s
  | .st s => [ConvState.IN_CONVERSATION, .WAITING_FOR_USER_INPUT, .CONVERSATION_PAUSED].contains s

/-- Python truthiness of an optional-string field (used in the service guards
`if not conversation_id` / `if content` guards): `None` and the empty
string are falsy. -/
def isTruthy (o : Option String) : Bool :=
  match o with
  | none => false
  | some s => s ≠ ""

/-- Error raised out of a service operation.  Every exception (including
`UserNotActiveError` and `ConversationNotFoundError`) is caught in the
except block of the operation and re-raised as a `BotError`; the constructor
records which underlying exception was wrapped. -/
inductive BotErr where
  | userNotActive
  | conversationNotFound
  | adapterFailure
deriving DecidableEq, Repr

/-- A normalized `ConversationEvent` as consumed by the service
(`agentrylab.telegram.models.ConversationEvent`): the fields the service
reads are `event_type`, `content`, `agent_id` and `role`; `content` is
always a string (the adapter builds it with `str(...)`). -/
structure ConversationEvent where
  conversation_id : String
  event_type : String
  content : String
  agent_id : Option String := none
  role : Option String := none
  iteration : Nat := 0
deriving DecidableEq, Repr

/-- One call made to the caller-supplied `event_handler(event_type,
content, agent_id, role)` coroutine by `_handle_conversation_event`. -/
structure HandlerCall where
  event_type : String
  content : String
  agent_id : Option String
  role : Option String
deriving DecidableEq, Repr

/-!
Service operations (`bot/services/conversation_service.py`).

Each operation is a function of the `UserConversationState` of the owning user
(the per-user record of the state manager) plus a parameter describing the
outcome of the opaque adapter call it makes (`some cid` / `true` = the
adapter returned normally, `none` / `false` = the adapter raised).  The
result pairs the updated user record with the outcome of the operation:
`Except BotErr α` models "returned `α`" versus "raised `BotError`".
-/

/-- `ConversationService.start_conversation` (lines 42–98).  Validates
`can_start_new_conversation`, sets the string states
`"starting_conversation"` / `"in_conversation"` around the adapter call,
records preset, topic, conversation id and metadata.  Any exception —
including the `UserNotActiveError` of the validation itself — is caught by
the `except` block, which sets the user state to the string `"error"` and
re-raises `BotError`.  `adapterRes` is the conversation id returned by
`adapter.start_conversation`, or `none` if that call raised;
`now` abstracts the `started_at` timestamp. -/
def start_conversation (adapterRes : Option String) (preset_id topic : String)
    (max_rounds : Nat) (now : Nat) (u : UserConversationState) :
    UserConversationState × Except BotErr String :=
  if u.can_start_new_conversation then
    let u1 := ((u.set_state (.st .STARTING_CONVERSATION)).set_preset preset_id).set_topic topic
    match adapterRes with
    | some cid =>
        let u2 := (u1.set_conversation_id cid).set_state (.st .IN_CONVERSATION)
        let u3 := (u2.add_metadata "max_rounds" max_rounds).add_metadata "started_at" now
        (u3, .ok cid)
    | none => (u1.set_state (.st .ERROR), .error .adapterFailure)
  else
    (u.set_state (.st .ERROR), .error .userNotActive)

/-- `ConversationService.pause_conversation` (lines 143–179).  Requires
`is_in_conversation` (an enum-membership test) and a truthy conversation
id, calls `adapter.pause_conversation`, then sets the string state
`"conversation_paused"`.  A raise leaves the user record unchanged (the
`except` block only re-wraps into `BotError`). -/
def pause_conversation (adapterOk : Bool) (u : UserConversationState) :
    UserConversationState × Except BotErr Unit :=
  if u.is_in_conversation then
    if isTruthy u.conversation_id then
      if adapterOk then (u.set_state (.st .CONVERSATION_PAUSED), .ok ())
      else (u, .error .adapterFailure)
    else (u, .error .conversationNotFound)
  else (u, .error .userNotActive)

/-- `ConversationService.resume_conversation` (lines 181–212).  Requires
`user_state.state != ConversationStates.CONVERSATION_PAUSED` to be false —
a comparison against the *string* constant `"conversation_paused"` — and a
truthy conversation id, calls `adapter.resume_conversation`, then sets the
string state `"in_conversation"`. -/
def resume_conversation (adapterOk : Bool) (u : UserConversationState) :
    UserConversationState × Except BotErr Unit :=
  if u.state = .st .CONVERSATION_PAUSED then
    if isTruthy u.conversation_id then
      if adapterOk then (u.set_state (.st .IN_CONVERSATION), .ok ())
      else (u, .error .adapterFailure)
    else (u, .error .conversationNotFound)
  else (u, .error .userNotActive)

/-- `ConversationService.stop_conversation` (lines 214–250).  Requires
`is_in_conversation` and a truthy conversation id, calls
`adapter.stop_conversation`, then sets the string state
`"conversation_ended"`.  The conversation id is not cleared. -/
def stop_conversation (adapterOk : Bool) (u : UserConversationState) :
    UserConversationState × Except BotErr Unit :=
  if u.is_in_conversation then
    if isTruthy u.conversation_id then
      if adapterOk then (u.set_state (.st .CONVERSATION_ENDED), .ok ())
      else (u, .error .adapterFailure)
    else (u, .error .conversationNotFound)
  else (u, .error .userNotActive)

/-- `ConversationService.handle_user_input` (lines 252–288).  Requires the
state to equal the *string* constant
`ConversationStates.WAITING_FOR_USER_INPUT = "waiting_for_user_input"` and
a truthy conversation id, calls `adapter.post_user_message`, then sets the
string state `"in_conversation"` and returns `True`.  On any failed check
or adapter raise it raises `BotError` (it never returns `False`), leaving
the user record unchanged. -/
def handle_user_input (adapterOk : Bool) (u : UserConversationState)
    (message : String) : UserConversationState × Except BotErr Bool :=
  if u.state = .st .WAITING_FOR_USER_INPUT then
    if isTruthy u.conversation_id then
      if adapterOk then (u.set_state (.st .IN_CONVERSATION), .ok true)
      else (u, .error .adapterFailure)
    else (u, .error .conversationNotFound)
  else (u, .error .userNotActive)

/-- `ConversationService._handle_conversation_event` (lines 348–407).
Dispatch on `event.event_type`:
  * `"conversation_started"` — forward `(type, content, None, None)`;
  * `"agent_message"` — reclassify by `role` into `"user_message"` /
    `"moderator_action"` / `"summary_update"`, forward only `if content:`
    (Python truthiness of the string);
  * `"user_turn"` — set state to the string `"waiting_for_user_input"`,
    forward;
  * `"conversation_completed"` — set state to the string
    `"conversation_ended"`, forward;
  * `"error"` — set state to the string `"error"`, forward;
  * anything else — forward unchanged.
Returns the updated user record and the list of `event_handler` calls. -/
def handle_conversation_event (u : UserConversationState) (ev : ConversationEvent) :
    UserConversationState × List HandlerCall :=
  if ev.event_type = "conversation_started" then
    (u, [⟨"conversation_started", ev.content, none, none⟩])
  else if ev.event_type = "agent_message" then
    let et :=
      if ev.role = some "user" then "user_message"
      else if ev.role = some "moderator" then "moderator_action"
      else if ev.role = some "summarizer" then "summary_update"
      else "agent_message"
    if ev.content ≠ "" then (u, [⟨et, ev.content, ev.agent_id, ev.role⟩])
    else (u, [])
  else if ev.event_type = "user_turn" then
    (u.set_state (.st .WAITING_FOR_USER_INPUT),
     [⟨"user_turn", ev.content, none, none⟩])
  else if ev.event_type = "conversation_completed" then
    (u.set_state (.st .CONVERSATION_ENDED),
     [⟨"conversation_completed", ev.content, none, none⟩])
  else if ev.event_type = "error" then
    (u.set_state (.st .ERROR), [⟨"error", ev.content, none, none⟩])
  else
    (u, [⟨ev.event_type, ev.content, ev.agent_id, ev.role⟩])

/-- How the `async for` over `adapter.stream_events` in
`_stream_conversation_events` terminated: normal exhaustion, an exception
propagated from the stream, or task cancellation. -/
inductive StreamTerm where
  | normal
  | raised (msg : String)
  | cancelled
deriving DecidableEq, Repr

/-- `ConversationService._stream_conversation_events` (lines 317–346).
For each streamed event: re-read the user record, `break` unless
`is_in_conversation` (the enum-membership test), otherwise handle the
event.  If the stream raised, the `except` block sets the user state to
the string `"error"`; cancellation and normal exhaustion leave the state
as the loop left it.  `evs` is the list of events the stream yielded
before terminating as `term` describes. -/
def streamDrainLoop (u : UserConversationState) (l : List ConversationEvent) :
    UserConversationState × List HandlerCall :=
  match l with
  | [] => (u, [])
  | ev :: rest =>
      if u.is_in_conversation then
        let (u1, calls) := handle_conversation_event u ev
        let (u2, more) := streamDrainLoop u1 rest
        (u2, calls ++ more)
      else (u, [])

/-- `_stream_conversation_events` as a whole: run the drain loop over the
yielded events, then apply the termination handling described above. -/
def stream_conversation_events (u : UserConversationState)
    (evs : List ConversationEvent) (term : StreamTerm) :
    UserConversationState × List HandlerCall :=
  let (u1, calls) := streamDrainLoop u evs
  match term with
  | .raised _ => (u1.set_state (.st .ERROR), calls)
  | _ => (u1, calls)

/-!
Stream bridge (`bot/adapters/agentrylab.py`, `_iterate_lab_stream`).

The producer closure runs `for event in lab.stream(...)` on an executor
thread, forwarding each raw event into an `asyncio.Queue`; a caught
exception is put on the queue in place of an event, and the `finally`
block always puts the distinguished `_SENTINEL` last.  The consumer loop
awaits `queue.get()` and: breaks on the sentinel, re-raises a queued
exception, and yields anything else.  The queue is FIFO with a single
producer and a single consumer.
-/

/-- A raw event dict yielded by `lab.stream`.  The keys the adapter reads
are `event` (with default `"agent_message"`), `content` (stringified, with
default `""`), `metadata`, `iter`, `agent_id` and `role`. -/
structure RawEvent where
  event : Option String := none
  content : String := ""
  agent_id : Option String := none
  role : Option String := none
  iter : Nat := 0
deriving DecidableEq, Repr

/-- An item placed on the hand-off queue by the producer thread: a raw
event, a caught producer exception (identified by its message), or the
sentinel.  The three cases are distinguished on the consumer side by
`item is _SENTINEL` / `isinstance(item, Exception)`. -/
inductive QItem where
  | ev (e : RawEvent)
  | exc (msg : String)
  | sentinel
deriving DecidableEq, Repr

/-- The exact sequence of queue items produced by the producer closure for
a run of `lab.stream` that yields `evs` and then either exhausts normally
(`err = none`) or raises (`err = some msg`): the events in order, then the
exception if any, then — from the `finally` block — the sentinel. -/
def producerItems (evs : List RawEvent) (err : Option String) : List QItem :=
  evs.map QItem.ev ++ (match err with | some m => [.exc m] | none => []) ++ [.sentinel]

/-- How the consumer side of the bridge terminated: normal end of stream
(the `break` on the sentinel) or a re-raised producer exception. -/
inductive BridgeResult where
  | endOfStream
  | raised (msg : String)
deriving DecidableEq, Repr

/-- The consumer loop of `_iterate_lab_stream`: repeatedly take the next
queue item; stop yielding on the sentinel, re-raise a queued exception,
yield any raw event and continue.  Returns the yielded events in order and
the way the loop ended.  (An empty item list cannot arise from
`producerItems`, which always ends in the sentinel; the `[]` case is the
consumer still blocked awaiting an item, mapped to end-of-stream for
totality.) -/
def consumeBridge (items : List QItem) : List RawEvent × BridgeResult :=
  match items with
  | [] => ([], .endOfStream)
  | .sentinel :: _ => ([], .endOfStream)
  | .exc m :: _ => ([], .raised m)
  | .ev e :: rest =>
      let (l, r) := consumeBridge rest
      (e :: l, r)

/-!
Drain task (`bot/adapters/agentrylab.py`, `_run_conversation`).

`_run_conversation` emits `conversation_started`, then iterates the bridge:
for each raw event it breaks if the session status left `ACTIVE`,
classifies the raw `event` tag (reclassifying `agent_message` by role),
puts the normalized `ConversationEvent` on the per-conversation event
queue, then non-blockingly pops at most one queued user message and — if
unprocessed — posts it to the lab and emits a synthetic `user_message`
event.  Normal exhaustion of the bridge emits `conversation_completed`
and sets the session status to `COMPLETED`; `CancelledError` sets
`STOPPED` without emitting; any other exception sets `ERROR` and emits an
`error` event.
-/

/-- The `ConversationStatus` values of the session model that
`_run_conversation` reads and writes. -/
inductive ConversationStatus where
  | ACTIVE
  | PAUSED
  | STOPPED
  | COMPLETED
  | ERROR
deriving DecidableEq, Repr

/-- A queued user message (`pendingUserInput` entries): content, sender
and the `processed` flag. -/
structure UserMessage where
  content : String
  user_id : String
  processed : Bool := false
deriving DecidableEq, Repr

/-- The session-side state mutated by `_run_conversation`: the session
status, the events emitted to the per-conversation event queue (in
order), the queued user messages, and the messages forwarded into
`lab.post_user_message`. -/
structure RunState where
  status : ConversationStatus
  emitted : List ConversationEvent := []
  user_queue : List UserMessage := []
  posted_to_lab : List (String × String) := []
deriving DecidableEq, Repr

/-- Classification of the type tag of a raw event performed inside the drain loop:
`event.get("event", "agent_message")`, then for `"agent_message"` the
role-based reclassification using `event.get("role", "")`. -/
def classifyRawEvent (r : RawEvent) : String :=
  let et := r.event.getD "agent_message"
  if et = "agent_message" then
    let role := r.role.getD ""
    if role = "user" then "user_message"
    else if role = "moderator" then "moderator_action"
    else if role = "summarizer" then "summary_update"
    else et
  else et

/-- The normalized `ConversationEvent` built from a raw event in the drain
loop. -/
def mkConvEvent (cid : String) (r : RawEvent) : ConversationEvent :=
  { conversation_id := cid, event_type := classifyRawEvent r,
    content := r.content, agent_id := r.agent_id, role := r.role,
    iteration := r.iter }

/-- An event emitted through `_emit_event(conversation_id, type, content)`
(content-only, no agent or role). -/
def emitEvent (cid ty content : String) : ConversationEvent :=
  { conversation_id := cid, event_type := ty, content := content }

/-- The opportunistic user-message hand-off after each delivered event
(lines 100–115): `get_nowait` pops at most one queued message; if it is
unprocessed it is posted to the lab and a synthetic `user_message` event
is emitted.  No other state is touched — in particular the per-user flow
state is not visible to, and not changed by, this step. -/
def drainUserQueue (cid : String) (s : RunState) : RunState :=
  match s.user_queue with
  | [] => s
  | m :: rest =>
      if ¬ m.processed then
        { s with user_queue := rest,
                 posted_to_lab := s.posted_to_lab ++ [(m.content, m.user_id)],
                 emitted := s.emitted ++
                   [emitEvent cid "user_message" m.content] }
      else { s with user_queue := rest }

/-- The `async for` body of `_run_conversation` over the raw events the
bridge delivered: break when the status is no longer `ACTIVE`, otherwise
emit the normalized event and run the user-message hand-off. -/
def runLoop (cid : String) (s : RunState) (raws : List RawEvent) : RunState :=
  match raws with
  | [] => s
  | r :: rest =>
      if s.status ≠ .ACTIVE then s
      else runLoop cid (drainUserQueue cid { s with emitted := s.emitted ++ [mkConvEvent cid r] }) rest

/-- `_run_conversation` end to end: the `conversation_started` emission,
the drain loop over the raw events the bridge delivered, and the
termination handling — `term` says how the bridge iteration ended
(normal exhaustion, a propagated exception, or task cancellation). -/
def run_conversation (cid : String) (raws : List RawEvent) (term : StreamTerm)
    (s0 : RunState) : RunState :=
  let s1 := { s0 with emitted := s0.emitted ++ [emitEvent cid "conversation_started" "Conversation started"] }
  let s2 := runLoop cid s1 raws
  match term with
  | .normal =>
      { s2 with emitted := s2.emitted ++ [emitEvent cid "conversation_completed" "Conversation completed"],
                status := .COMPLETED }
  | .raised msg =>
      { s2 with status := .ERROR,
                emitted := s2.emitted ++ [emitEvent cid "error" ("Error: " ++ msg)] }
  | .cancelled => { s2 with status := .STOPPED }

/-!
Cancellation model for the bridge (claim C5).

`AsyncTelegramAdapter.stop_conversation` cancels the asyncio task of the
conversation and the producer future.  The decisive mechanism is the
cancellation contract: once the consumer task is cancelled, its pending
`await queue.get()` resumes by raising `CancelledError` instead of
returning an item — even when items are already buffered — after which the
generator is finalized and any further pull observes end of stream
(`StopAsyncIteration`).  The labelled transition system below embeds
exactly this: the producer thread may keep buffering (its future cannot be
interrupted once running), but a `deliver` step requires the consumer not
to be cancelled, and a cancelled consumer can only finalize, after which
the only observation is `endOfStream`.
-/

/-- State of one bridge: the not-yet-buffered events of the producer, the
hand-off queue contents, the events delivered to the consumer, whether
cancellation was requested, and whether the consumer generator has been
finalized. -/
structure BridgeState where
  pending : List RawEvent
  queue : List QItem
  delivered : List RawEvent
  cancelled : Bool
  closed : Bool
deriving DecidableEq, Repr

/-- Observable labels of bridge transitions. -/
inductive BLabel where
  | produce
  | deliver (e : RawEvent)
  | cancel
  | finalize
  | endOfStream
deriving DecidableEq, Repr

/-- Small-step semantics of the bridge under cancellation.  `produce` is
always enabled while the producer has events (the worker thread is not
interruptible); `deliver` requires the consumer to be neither cancelled
nor finalized; `cancel` is the effect of `stop_conversation`; `finalize`
is the consumer observing its cancellation at the `await`; `endOfStream`
is a pull on the finalized generator, which returns no event. -/
inductive BridgeStep : BridgeState → BLabel → BridgeState → Prop where
  | produce (s : BridgeState) (e : RawEvent) (rest : List RawEvent)
      (h : s.pending = e :: rest) :
      BridgeStep s .produce
        { s with pending := rest, queue := s.queue ++ [.ev e] }
  | deliver (s : BridgeState) (e : RawEvent) (rest : List QItem)
      (hc : s.cancelled = false) (hcl : s.closed = false)
      (h : s.queue = .ev e :: rest) :
      BridgeStep s (.deliver e)
        { s with queue := rest, delivered := s.delivered ++ [e] }
  | cancel (s : BridgeState) :
      BridgeStep s .cancel { s with cancelled := true }
  | finalize (s : BridgeState) (hc : s.cancelled = true)
      (hcl : s.closed = false) :
      BridgeStep s .finalize { s with closed := true }
  | endOfStream (s : BridgeState) (hcl : s.closed = true) :
      BridgeStep s .endOfStream s

/-- A finite run of the bridge, recording the labels in order. -/
inductive BridgeTrace : BridgeState → List BLabel → BridgeState → Prop where
  | nil (s : BridgeState) : BridgeTrace s [] s
  | cons {s s' t : BridgeState} {l : BLabel} {tr : List BLabel}
      (hstep : BridgeStep s l s') (htr : BridgeTrace s' tr t) :
      BridgeTrace s (l :: tr) t

/-!
Theorems about the embedded operations.
-/

/-- Claim C9: `can_start_new_conversation` holds exactly for the four
states `IDLE`, `ENTERING_TOPIC`, `CONVERSATION_ENDED` and `ERROR` — the
membership test is over the `ConversationState` enum members, so the
predicate is true precisely when the stored value is one of those four
enum members, and false for every other stored value. -/
theorem c9_can_start_exactly_four (u : UserConversationState) :
    u.can_start_new_conversation = true ↔
      (u.state = .en .IDLE ∨ u.state = .en .ENTERING_TOPIC ∨
       u.state = .en .CONVERSATION_ENDED ∨ u.state = .en .ERROR) := by
  rcases u with ⟨uid, v, p, t, c, m⟩
  rcases v with s | s <;> cases s <;>
    simp [UserConversationState.can_start_new_conversation, enumMem]

/-- Claim C6: for every finite sequence of raw events yielded by the
producer and fed through the hand-off queue, the consumer loop of
`_iterate_lab_stream` yields exactly those events in the same order and
then observes the sentinel as end of stream. -/
theorem c6_bridge_fifo_order (evs : List RawEvent) :
    consumeBridge (producerItems evs none) = (evs, .endOfStream) := by
  induction evs with
  | nil => rfl
  | cons e rest ih =>
      simp only [producerItems, List.map_cons, List.cons_append, consumeBridge]
      simp only [producerItems, List.append_nil, List.append_assoc,
        List.singleton_append] at ih
      simp [ih]

/-- Claim C7: if the producer raises after yielding a prefix of events,
the consumer receives exactly that prefix, then the single queued
exception is re-raised (once, as the terminal outcome of the loop) and no
further event is yielded — the trailing sentinel is never consumed. -/
theorem c7_exception_ends_stream (evs : List RawEvent) (msg : String) :
    consumeBridge (producerItems evs (some msg)) = (evs, .raised msg) := by
  induction evs with
  | nil => rfl
  | cons e rest ih =>
      simp only [producerItems, List.map_cons, List.cons_append, consumeBridge]
      simp only [producerItems, List.append_nil, List.append_assoc,
        List.singleton_append] at ih
      simp [ih]

/-- Claim C10: in `_handle_conversation_event`, an `agent_message` event
(covering its role-reclassified `user_message` / `moderator_action` /
`summary_update` sub-kinds) is forwarded if and only if its content is
non-empty (Python string truthiness), while an event of any other kind is
forwarded (exactly one handler call) regardless of content. -/
theorem c10_empty_agent_message_dropped (u : UserConversationState)
    (ev : ConversationEvent) :
    (ev.event_type = "agent_message" →
      ((handle_conversation_event u ev).2 = [] ↔ ev.content = "")) ∧
    (ev.event_type ≠ "agent_message" →
      (handle_conversation_event u ev).2.length = 1) := by
  unfold handle_conversation_event
  constructor
  · intro h
    simp only [h]
    split_ifs <;> simp_all
  · intro h
    split_ifs <;> simp_all

/-- Witness for C10: an `agent_message` with empty content produces no
handler call; a `user_turn` event produces exactly one. -/
theorem c10_witness :
    (handle_conversation_event (freshUser "7")
      { conversation_id := "c1", event_type := "agent_message", content := "" }).2 = [] ∧
    (handle_conversation_event (freshUser "7")
      { conversation_id := "c1", event_type := "user_turn", content := "x" }).2.length = 1 := by
  constructor
  · exact ((c10_empty_agent_message_dropped (freshUser "7")
      { conversation_id := "c1", event_type := "agent_message", content := "" }).1 rfl).2 rfl
  · exact (c10_empty_agent_message_dropped (freshUser "7")
      { conversation_id := "c1", event_type := "user_turn", content := "x" }).2 (by decide)

/-- Counterexample to claim C2: `handle_user_input` never returns `false`.
For a user in the default `IDLE` state it raises `BotError` (wrapping
`UserNotActiveError`) instead of returning `false`; and even for a user
whose state is the `ConversationState` *enum member*
`WAITING_FOR_USER_INPUT` with a conversation id present, it still raises,
because the guard compares against the *string* constant
`"waiting_for_user_input"` from `constants.ConversationStates` and an enum
member never equals that string. -/
theorem c2_counterexample :
    (handle_user_input true (freshUser "7") "hi").2 = .error .userNotActive ∧
    (handle_user_input true (freshUser "7") "hi").2 ≠ .ok false ∧
    (handle_user_input true
      { user_id := "7", state := .en .WAITING_FOR_USER_INPUT,
        conversation_id := some "c1" } "hi").2 = .error .userNotActive :=
  ⟨rfl, fun h => Except.noConfusion h, rfl⟩

/-- Claim C2 as amended: when the flow state differs from the string
constant written by the service, `"waiting_for_user_input"` (including the enum member of
the same name), `handle_user_input` raises `BotError` as a no-op — it does
not return `false`; when the state equals the string constant, a truthy
conversation id is present and the adapter call succeeds, it forwards the
text and returns `true`. -/
theorem c2_amended (adapterOk : Bool) (u : UserConversationState) (msg : String) :
    (u.state ≠ .st .WAITING_FOR_USER_INPUT →
      handle_user_input adapterOk u msg = (u, .error .userNotActive)) ∧
    (u.state = .st .WAITING_FOR_USER_INPUT → isTruthy u.conversation_id = true →
      adapterOk = true →
      handle_user_input adapterOk u msg
        = (u.set_state (.st .IN_CONVERSATION), .ok true)) := by
  unfold handle_user_input
  constructor
  · intro h
    simp [h]
  · intro h ht hok
    simp [h, ht, hok]

/-- Witness for the amended C2: a user whose state is the string constant
`"waiting_for_user_input"` with conversation id `"c1"` gets the input
forwarded and `True` returned. -/
theorem c2_amended_witness :
    (handle_user_input true
      { user_id := "7", state := .st .WAITING_FOR_USER_INPUT,
        conversation_id := some "c1" } "hi").2 = .ok true := by
  have h := (c2_amended true
    { user_id := "7", state := .st .WAITING_FOR_USER_INPUT,
      conversation_id := some "c1" } "hi").2 rfl (by decide) rfl
  rw [h]

/-- Counterexample to claim C3: a successful post *does* change the flow
state.  From the string state `"waiting_for_user_input"` with a
conversation id present, `handle_user_input` succeeds and the resulting
flow state is the string `"in_conversation"`, not
`WAITING_FOR_USER_INPUT`. -/
theorem c3_counterexample :
    (handle_user_input true
      { user_id := "7", state := .st .WAITING_FOR_USER_INPUT,
        conversation_id := some "c1" } "hi").2 = .ok true ∧
    (handle_user_input true
      { user_id := "7", state := .st .WAITING_FOR_USER_INPUT,
        conversation_id := some "c1" } "hi").1.state = .st .IN_CONVERSATION ∧
    (handle_user_input true
      { user_id := "7", state := .st .WAITING_FOR_USER_INPUT,
        conversation_id := some "c1" } "hi").1.state
      ≠ .st .WAITING_FOR_USER_INPUT :=
  ⟨rfl, rfl, by decide⟩

/-- Claim C3 as amended: `handle_user_input` itself performs the
transition — after a successful post the flow state is `IN_CONVERSATION`
(the string constant the service writes) — while the stream-draining
handling by the loop of the synthetic `user_message` event changes no flow
state. -/
theorem c3_amended (adapterOk : Bool) (u : UserConversationState)
    (msg : String) (ev : ConversationEvent) :
    ((handle_user_input adapterOk u msg).2 = .ok true →
      (handle_user_input adapterOk u msg).1.state = .st .IN_CONVERSATION) ∧
    (ev.event_type = "user_message" → (handle_conversation_event u ev).1 = u) := by
  constructor
  · unfold handle_user_input
    split_ifs <;> simp [UserConversationState.set_state]
  · intro h
    unfold handle_conversation_event
    simp [h]

/-- Witness for the amended C3: the concrete successful post of
`c3_counterexample` ends in state `"in_conversation"`, and handling a
synthetic `user_message` event leaves a fresh user record unchanged. -/
theorem c3_amended_witness :
    (handle_user_input true
      { user_id := "7", state := .st .WAITING_FOR_USER_INPUT,
        conversation_id := some "c1" } "hi").1.state = .st .IN_CONVERSATION ∧
    (handle_conversation_event (freshUser "7")
      { conversation_id := "c1", event_type := "user_message",
        content := "hi" }).1 = freshUser "7" := by
  constructor
  · exact (c3_amended true
      { user_id := "7", state := .st .WAITING_FOR_USER_INPUT,
        conversation_id := some "c1" } "hi"
      { conversation_id := "c1", event_type := "user_message",
        content := "hi" }).1 rfl
  · exact (c3_amended true (freshUser "7") "hi"
      { conversation_id := "c1", event_type := "user_message",
        content := "hi" }).2 rfl

/-- Counterexample to claim C8: `stop_conversation` breaks the claimed
biconditional.  A user in the enum state `IN_CONVERSATION` with
conversation id `"c1"` satisfies it; after a successful stop the state is
`"conversation_ended"` — no longer an in-conversation state — yet the
conversation id is still set (`stop_conversation` never clears it). -/
theorem c8_counterexample :
    specInConversation (StateVal.en .IN_CONVERSATION) = true ∧
    (stop_conversation true
      { user_id := "7", state := .en .IN_CONVERSATION,
        conversation_id := some "c1" }).2 = .ok () ∧
    specInConversation (stop_conversation true
      { user_id := "7", state := .en .IN_CONVERSATION,
        conversation_id := some "c1" }).1.state = false ∧
    (stop_conversation true
      { user_id := "7", state := .en .IN_CONVERSATION,
        conversation_id := some "c1" }).1.conversation_id = some "c1" :=
  ⟨rfl, rfl, rfl, rfl⟩

/-- A truthy optional string is not `None`. -/
theorem isTruthy_ne_none {o : Option String} (h : isTruthy o = true) : o ≠ none := by
  cases o <;> simp [isTruthy] at *

/-- Claim C8 as amended: only the forward implication holds — whenever the
flow state denotes `IN_CONVERSATION`, `WAITING_FOR_USER_INPUT` or
`CONVERSATION_PAUSED`, the conversation id is set — and `start`, `stop`,
`pause`, `resume` and `reset` each preserve this implication, with `reset`
additionally clearing the id and leaving a non-conversation state.  The
reverse direction fails (see the counterexample): `stop` moves the state
out of the in-conversation set while leaving the id set. -/
theorem c8_amended (u : UserConversationState) (adapterRes : Option String)
    (adapterOk : Bool) (p t : String) (mr now : Nat)
    (hu : specInConversation u.state = true → u.conversation_id ≠ none) :
    (specInConversation (start_conversation adapterRes p t mr now u).1.state = true →
      (start_conversation adapterRes p t mr now u).1.conversation_id ≠ none) ∧
    (specInConversation (pause_conversation adapterOk u).1.state = true →
      (pause_conversation adapterOk u).1.conversation_id ≠ none) ∧
    (specInConversation (resume_conversation adapterOk u).1.state = true →
      (resume_conversation adapterOk u).1.conversation_id ≠ none) ∧
    (specInConversation (stop_conversation adapterOk u).1.state = true →
      (stop_conversation adapterOk u).1.conversation_id ≠ none) ∧
    (u.reset.conversation_id = none ∧ specInConversation u.reset.state = false) := by
  refine ⟨?_, ?_, ?_, ?_, ?_, ?_⟩
  · unfold start_conversation
    split_ifs with h
    · cases adapterRes <;>
        simp [UserConversationState.set_state, UserConversationState.set_preset,
          UserConversationState.set_topic, UserConversationState.set_conversation_id,
          UserConversationState.add_metadata, specInConversation]
    · simp [UserConversationState.set_state, specInConversation]
  · unfold pause_conversation
    split_ifs with h1 h2 h3
    · intro _
      exact isTruthy_ne_none h2
    all_goals exact hu
  · unfold resume_conversation
    split_ifs with h1 h2 h3
    · intro _
      exact isTruthy_ne_none h2
    all_goals exact hu
  · unfold stop_conversation
    split_ifs with h1 h2 h3
    · simp [UserConversationState.set_state, specInConversation]
    all_goals exact hu
  · simp [UserConversationState.reset]
  · simp [UserConversationState.reset, specInConversation]

/-- Witness for the amended C8: from a user in the string state
`"conversation_paused"` with id `"c1"` (which satisfies the forward
implication), a successful resume again satisfies it, and reset clears
the id. -/
theorem c8_amended_witness :
    ((resume_conversation true
      { user_id := "7", state := .st .CONVERSATION_PAUSED,
        conversation_id := some "c1" }).1.conversation_id ≠ none) ∧
    (({ user_id := "7", state := .st .CONVERSATION_PAUSED,
        conversation_id := some "c1" } : UserConversationState).reset.conversation_id
      = none) := by
  have h := c8_amended
    { user_id := "7", state := .st .CONVERSATION_PAUSED, conversation_id := some "c1" }
    (some "x") true "p" "t" 10 0 (by decide)
  exact ⟨h.2.2.1 (by decide), h.2.2.2.2.1⟩

/-- Claim C1 evaluated at the failing input (code bug): starting a
conversation for a fresh user succeeds and puts the flow state at the
*string* `"in_conversation"`; the event stream then raises, so
`_stream_conversation_events` sets the flow state to the *string*
`"error"`; the claim (and the scenario of spec section 8) says a second start now
succeeds, but `can_start_new_conversation` tests membership among
`ConversationState` enum members, the stored string `"error"` matches none
of them, and the second `start_conversation` is rejected with
`UserNotActiveError` (re-raised as `BotError`). -/
theorem c1_code_bug_eval :
    (start_conversation (some "conv-1") "debates" "X" 10 0 (freshUser "42")).2
      = .ok "conv-1" ∧
    (let u1 := (start_conversation (some "conv-1") "debates" "X" 10 0 (freshUser "42")).1
     let u2 := (stream_conversation_events u1 [] (.raised "engine failure")).1
     u1.state = .st .IN_CONVERSATION ∧
     u2.state = .st .ERROR ∧
     u2.can_start_new_conversation = false ∧
     (start_conversation (some "conv-2") "debates" "Y" 10 1 u2).2
       = .error .userNotActive) :=
  ⟨rfl, rfl, rfl, rfl, rfl⟩

/-- Claim C4: while draining events, each event kind maps to exactly the
specified state change — `user_turn` sets the flow state to
`WAITING_FOR_USER_INPUT`, `conversation_completed` sets it to
`CONVERSATION_ENDED`, `error` sets it to `ERROR`, and no other kind
changes the flow state; and the adapter run that emits
`conversation_completed` on normal stream exhaustion also sets the session
status to `COMPLETED`. -/
theorem c4_event_state_mapping (u : UserConversationState)
    (ev : ConversationEvent) (cid : String) (raws : List RawEvent)
    (s0 : RunState) :
    (ev.event_type = "user_turn" →
      (handle_conversation_event u ev).1.state = .st .WAITING_FOR_USER_INPUT) ∧
    (ev.event_type = "conversation_completed" →
      (handle_conversation_event u ev).1.state = .st .CONVERSATION_ENDED) ∧
    (ev.event_type = "error" →
      (handle_conversation_event u ev).1.state = .st .ERROR) ∧
    (ev.event_type ≠ "user_turn" → ev.event_type ≠ "conversation_completed" →
      ev.event_type ≠ "error" → (handle_conversation_event u ev).1 = u) ∧
    ((run_conversation cid raws .normal s0).status = .COMPLETED ∧
      ∃ l, (run_conversation cid raws .normal s0).emitted
        = l ++ [emitEvent cid "conversation_completed" "Conversation completed"]) := by
  refine ⟨?_, ?_, ?_, ?_, rfl, _, rfl⟩
  · intro h
    simp [handle_conversation_event, h, UserConversationState.set_state]
  · intro h
    simp [handle_conversation_event, h, UserConversationState.set_state]
  · intro h
    simp [handle_conversation_event, h, UserConversationState.set_state]
  · intro h1 h2 h3
    unfold handle_conversation_event
    split_ifs <;> simp_all

/-- Witness for C4: a concrete `user_turn` event puts the user in the
waiting state, and a run over an empty stream completes with status
`COMPLETED`. -/
theorem c4_witness :
    (handle_conversation_event (freshUser "7")
      { conversation_id := "c1", event_type := "user_turn", content := "" }).1.state
      = .st .WAITING_FOR_USER_INPUT ∧
    (run_conversation "c1" [] .normal { status := .ACTIVE }).status = .COMPLETED := by
  have h := c4_event_state_mapping (freshUser "7")
    { conversation_id := "c1", event_type := "user_turn", content := "" }
    "c1" [] { status := .ACTIVE }
  exact ⟨h.1 rfl, h.2.2.2.2.1⟩

/-- Cancellation is irreversible: every bridge step preserves the
`cancelled` flag. -/
theorem bridge_step_cancelled_mono {s s' : BridgeState} {l : BLabel}
    (h : BridgeStep s l s') (hc : s.cancelled = true) : s'.cancelled = true := by
  cases h <;> simp_all

/-- Claim C5: once cancellation (the effect of `stop_conversation`) has
happened, no trace of the bridge contains a further `deliver` step — even
though the producer may still buffer events onto the hand-off queue — the
`cancelled` flag persists, no `deliver` step is enabled at the final
state, and once the consumer generator is finalized the only observation
available on a further pull is `endOfStream`. -/
theorem c5_cancel_stops_delivery {s t : BridgeState} {tr : List BLabel}
    (htr : BridgeTrace s tr t) :
    s.cancelled = true →
    ((∀ e : RawEvent, BLabel.deliver e ∉ tr) ∧ t.cancelled = true ∧
     (∀ (e : RawEvent) (t' : BridgeState), ¬ BridgeStep t (.deliver e) t') ∧
     (t.closed = true → BridgeStep t .endOfStream t)) := by
  induction htr with
  | nil s0 =>
      intro hc
      refine ⟨by simp, hc, ?_, fun h => .endOfStream s0 h⟩
      intro e t' hstep
      cases hstep
      simp_all
  | cons hstep htr2 ih =>
      intro hc
      have hc' := bridge_step_cancelled_mono hstep hc
      obtain ⟨ihmem, ihc, ihnd, iheos⟩ := ih hc'
      refine ⟨?_, ihc, ihnd, iheos⟩
      intro e hmem
      rcases List.mem_cons.mp hmem with heq | hmem2
      · cases hstep <;> simp_all
      · exact ihmem e hmem2

/-- Witness for C5: from a cancelled-but-unfinalized bridge state with one
event still pending at the producer, the trace that buffers the event and
finalizes the consumer contains no delivery, and the finalized state
answers a further pull with `endOfStream`. -/
theorem c5_witness :
    BLabel.deliver {} ∉ [BLabel.produce, BLabel.finalize] ∧
    BridgeStep ⟨[], [QItem.ev {}], [], true, true⟩ BLabel.endOfStream
      ⟨[], [QItem.ev {}], [], true, true⟩ := by
  have htr : BridgeTrace ⟨[({} : RawEvent)], [], [], true, false⟩
      [BLabel.produce, BLabel.finalize] ⟨[], [QItem.ev {}], [], true, true⟩ :=
    BridgeTrace.cons (BridgeStep.produce _ {} [] rfl)
      (BridgeTrace.cons (BridgeStep.finalize _ rfl rfl) (BridgeTrace.nil _))
  have h := c5_cancel_stops_delivery htr rfl
  exact ⟨h.1 {}, h.2.2.2 rfl⟩

end AgentryBot
